import Mathlib

/-!
Shallow embedding of the PM10AHDS power-meter protocol driver
(`src/PM10AHDS.py`) and verification of its specification.

Byte strings are modelled as `List Nat` of byte values; the protocol
traffic is ASCII, where Python's `bytes.decode()` is the identity on the
byte values, so the text-level operations of the source (`str.split`,
indexing, comparison against one-character strings) are modelled directly
on the byte lists.  Python exceptions that escape a function are modelled
as `none` in an outer `Option` layer; a Python function that returns
`None` on failure is modelled with an inner `Option`.  The floating-point
unit conversions of the status decoder are modelled in exact rational
arithmetic (`ℚ`), with the source's decimal constants taken at their
decimal values.
-/

namespace PM10AHDS

/-- One lowercase hexadecimal digit character, as produced by Python's
`format(n, "x")` for a digit value `n < 16`. -/
def pyHexDigitLower (n : Nat) : Nat :=
  if n < 10 then 48 + n else 87 + n

/-- Python's `str.upper()` on a single byte: lowercase ASCII letters are
mapped to uppercase, everything else is unchanged. -/
def pyUpperByte (b : Nat) : Nat :=
  if 97 ≤ b ∧ b ≤ 122 then b - 32 else b

/-- Fuel-based worker for `hexDigits`; the fuel only bounds the recursion
depth (one base-16 digit is peeled per step, so fuel `n + 1` always
suffices for input `n`). -/
def hexDigitsAux (fuel n : Nat) : List Nat :=
  match fuel with
  | 0 => []
  | fuel + 1 =>
    if n < 16 then [pyHexDigitLower n]
    else hexDigitsAux fuel (n / 16) ++ [pyHexDigitLower (n % 16)]

/-- The digit characters of `format(n, "x")` (no padding): base-16 digits
of `n`, most significant first, lowercase. -/
def hexDigits (n : Nat) : List Nat := hexDigitsAux (n + 1) n

/-- Python's `f"{n:0{width}x}"`: the hex digits of `n`, zero-padded on the
left to at least `width` characters. -/
def pyFormatHex (width n : Nat) : List Nat :=
  List.replicate (width - (hexDigits n).length) 48 ++ hexDigits n

/-- Python's `f"{n:0{width}x}".upper().encode()`. -/
def pyHexUpper (width n : Nat) : List Nat :=
  (pyFormatHex width n).map pyUpperByte

/-- Model of `PM10AHDS.construct_packet` (src/PM10AHDS.py lines 37-65): builds the
outbound packet `<` + address-as-2-hex-digits + command + `;` +
4-hex-digit modulo-65536 checksum + CRLF. -/
def construct_packet (address : Nat) (command : List Nat) : List Nat :=
  let addressBytes := pyHexUpper 2 address
  let body := addressBytes ++ command
  let checksum := pyHexUpper 4 (body.sum % 65536)
  60 :: (body ++ (59 :: (checksum ++ [13, 10])))

/-- Python's `bytes.split(sep)` for a single-byte separator: splits on
every occurrence of `sep`, keeping empty pieces; `[].split = [[]]`. -/
def pySplit (sep : Nat) : List Nat → List (List Nat)
  | [] => [[]]
  | b :: rest =>
    if b = sep then [] :: pySplit sep rest
    else
      match pySplit sep rest with
      | [] => [[b]]
      | l :: ls => (b :: l) :: ls

/-- Model of `PM10AHDS.validate_packet` (src/PM10AHDS.py lines 67-97).
`none` models the uncaught `IndexError` raised by `packet[0]` on an empty
byte string; `some false` / `some true` are the source's `False` / `True`
returns.  The source reads `packet.split(b';')[1]` inside a
`try`/`except` that returns `False`, so a missing separator is
`some false`, and the checksum field compared is the segment between the
first `;` and the second `;` (or the end of the packet). -/
def validate_packet (address : Nat) (packet : List Nat) : Option Bool :=
  match packet with
  | [] => none
  | p0 :: _ =>
    if p0 ≠ 62 then some false
    else if (packet.drop 1).take 2 ≠ pyHexUpper 2 address then some false
    else
      match pySplit 59 packet with
      | body :: checksum :: _ =>
        if checksum ≠ pyHexUpper 4 ((body.drop 1).sum % 65536) then some false
        else some true
      | _ => some false

/-- Python's `bytes.strip()` whitespace set: space, `\t`, `\n`, `\r`,
`\x0b`, `\x0c`. -/
def pyIsSpace (b : Nat) : Bool :=
  b == 32 || b == 9 || b == 10 || b == 13 || b == 11 || b == 12

/-- Python's `bytes.strip()`: drop leading and trailing whitespace. -/
def pyStrip (l : List Nat) : List Nat :=
  ((l.dropWhile pyIsSpace).reverse.dropWhile pyIsSpace).reverse

/-- The value of a nonempty all-decimal-digit byte string, `none` if the
string is empty or contains a non-digit. -/
def digitsVal (l : List Nat) : Option Nat :=
  match l with
  | [] => none
  | _ =>
    l.foldl
      (fun acc b =>
        match acc with
        | none => none
        | some v => if 48 ≤ b ∧ b ≤ 57 then some (v * 10 + (b - 48)) else none)
      (some 0)

/-- Python's `int(s)` on the byte strings that occur in protocol frames:
an optional sign followed by one or more decimal digits; `none` models the
`ValueError` raised on anything else.  (Python's `int` additionally
strips surrounding whitespace and permits `_` separators between digits;
no frame in this development exercises those forms.) -/
def pyInt (l : List Nat) : Option Int :=
  match l with
  | 43 :: rest => (digitsVal rest).map (fun v => (v : Int))
  | 45 :: rest => (digitsVal rest).map (fun v => -(v : Int))
  | _ => (digitsVal l).map (fun v => (v : Int))

/-- The decoded status dictionary built by `request_status`
(src/PM10AHDS.py lines 141-159), with the floating-point conversions
modelled in exact rational arithmetic. -/
structure StatusReading where
  runtime_seconds : Int
  energy_kwh : ℚ
  power_w : ℚ
  voltage_v : ℚ
  current_a : ℚ
  powerfactor_leadlag : String
  powerfactor : ℚ
  apparent_power_va : ℚ
deriving DecidableEq

/-- Field extraction and unit conversion of `request_status`
(src/PM10AHDS.py lines 140-159), applied after the 11-field check.  The
source parses fields 3,4,5,6,7,9,10 with `int(...)` with no surrounding
`try`, so a parse failure raises an uncaught `ValueError`, modelled as
`none`.  The energy constant `2.7777777777778E-10` is taken at its
decimal value `27777777777778 / 10^23`. -/
def decode_status_fields (fields : List (List Nat)) : Option StatusReading :=
  match pyInt (fields.getD 3 []), pyInt (fields.getD 4 []), pyInt (fields.getD 5 []),
        pyInt (fields.getD 6 []), pyInt (fields.getD 7 []), pyInt (fields.getD 9 []),
        pyInt (fields.getD 10 []) with
  | some f3, some f4, some f5, some f6, some f7, some f9, some f10 =>
    some
      { runtime_seconds := f3
        energy_kwh := (f4 : ℚ) * (27777777777778 / 10 ^ 23)
        power_w := (f5 : ℚ) / 1000
        voltage_v := (f6 : ℚ) / 1000000
        current_a := (f7 : ℚ) / 1000000
        powerfactor_leadlag := if fields.getD 8 [] = [49] then "lag" else "lead"
        powerfactor := (f9 : ℚ) / 1000000
        apparent_power_va := (f10 : ℚ) / 1000 }
  | _, _, _, _, _, _, _ => none

/-- Model of `PM10AHDS.request_status`, from the point where the serial response
`resp` has been read (src/PM10AHDS.py lines 118-165): empty response →
`None`; otherwise strip, validate, take the body before the first `;`
(which still carries the `>` start marker), require the type byte `S`
(83) at offset 3, split on `,` (44), require 11 fields, then convert.
Outer `none` models an uncaught exception (`IndexError` from `_body[3]`
on a short body, or `ValueError` from `int`); `some none` is a returned
`None`; `some (some r)` is a decoded reading. -/
def request_status_handle (address : Nat) (resp : List Nat) :
    Option (Option StatusReading) :=
  if resp = [] then some none
  else
    let r := pyStrip resp
    match validate_packet address r with
    | none => none
    | some false => some none
    | some true =>
      let body := (pySplit 59 r).headD []
      match body.get? 3 with
      | none => none
      | some t =>
        if t ≠ 83 then some none
        else
          let fields := pySplit 44 body
          if fields.length ≠ 11 then some none
          else
            match decode_status_fields fields with
            | none => none
            | some rd => some (some rd)

/-- Strict UTF-8 decoding as performed by Python's `bytes.decode()`:
returns the list of decoded code points, or `none` (a raised
`UnicodeDecodeError`) on any invalid byte sequence — bad lead byte, bad
or missing continuation byte, overlong form, surrogate, or a code point
above U+10FFFF. -/
def utf8Decode : List Nat → Option (List Nat)
  | [] => some []
  | b1 :: rest =>
    if b1 ≤ 127 then
      (utf8Decode rest).map (fun cs => b1 :: cs)
    else if 194 ≤ b1 ∧ b1 ≤ 223 then
      match rest with
      | b2 :: rest2 =>
        if 128 ≤ b2 ∧ b2 ≤ 191 then
          (utf8Decode rest2).map (fun cs => ((b1 - 192) * 64 + (b2 - 128)) :: cs)
        else none
      | [] => none
    else if 224 ≤ b1 ∧ b1 ≤ 239 then
      match rest with
      | b2 :: b3 :: rest3 =>
        if (if b1 = 224 then 160 ≤ b2 ∧ b2 ≤ 191
            else if b1 = 237 then 128 ≤ b2 ∧ b2 ≤ 159
            else 128 ≤ b2 ∧ b2 ≤ 191) ∧ (128 ≤ b3 ∧ b3 ≤ 191) then
          (utf8Decode rest3).map
            (fun cs => ((b1 - 224) * 4096 + (b2 - 128) * 64 + (b3 - 128)) :: cs)
        else none
      | _ => none
    else if 240 ≤ b1 ∧ b1 ≤ 244 then
      match rest with
      | b2 :: b3 :: b4 :: rest4 =>
        if (if b1 = 240 then 144 ≤ b2 ∧ b2 ≤ 191
            else if b1 = 244 then 128 ≤ b2 ∧ b2 ≤ 143
            else 128 ≤ b2 ∧ b2 ≤ 191) ∧
            (128 ≤ b3 ∧ b3 ≤ 191) ∧ (128 ≤ b4 ∧ b4 ≤ 191) then
          (utf8Decode rest4).map
            (fun cs =>
              ((b1 - 240) * 262144 + (b2 - 128) * 4096 + (b3 - 128) * 64 +
                (b4 - 128)) :: cs)
        else none
      | _ => none
    else none

/-- Model of `PM10AHDS.request_erase`, from the point where the serial response
`resp` has been read (src/PM10AHDS.py lines 185-196): empty response →
`None`; otherwise `_resp.strip().decode()` — strip the raw bytes, then
UTF-8-decode them — and return `_resp[3] == 'E'` (69), indexing the
DECODED string, i.e. code points, not bytes.  No validation is
performed.  Outer `none` models an uncaught exception: the
`UnicodeDecodeError` from `.decode()` on invalid UTF-8, or the
`IndexError` from `_resp[3]` on a decoded string shorter than 4
characters; `some none` is a returned `None`; `some (some b)` is a
returned boolean. -/
def request_erase_handle (resp : List Nat) : Option (Option Bool) :=
  if resp = [] then some none
  else
    match utf8Decode (pyStrip resp) with
    | none => none
    | some chars =>
      match chars.get? 3 with
      | none => none
      | some t => some (some (t == 69))

/-- Reshaping an outbound packet as a response-shaped echo, as described
by the spec's checksum round-trip property: the trailing CRLF is
stripped and the start marker `<` is replaced by `>` (62). -/
def asResponseEcho (packet : List Nat) : List Nat :=
  62 :: (packet.drop 1).dropLast.dropLast

/-- Rendering of a number as exactly 2 uppercase hexadecimal ASCII
digits, written from the spec's words (spec.md section 3, DeviceAddress:
"serialized as two uppercase hexadecimal ASCII digits"), for comparison
with the source's formatting. -/
def specHexDigit (n : Nat) : Nat :=
  if n < 10 then 48 + n else 65 + (n - 10)

/-- Two uppercase hex digits, most significant first (spec rendering). -/
def specHex2 (n : Nat) : List Nat :=
  [specHexDigit (n / 16 % 16), specHexDigit (n % 16)]

/-- Four uppercase zero-padded hex digits, most significant first (spec
rendering of the checksum, spec.md section 4.1). -/
def specHex4 (n : Nat) : List Nat :=
  [specHexDigit (n / 4096 % 16), specHexDigit (n / 256 % 16),
   specHexDigit (n / 16 % 16), specHexDigit (n % 16)]

/-! ## Helper lemmas about the hexadecimal rendering -/

theorem hexDigitsAux_mono (f1 : Nat) : ∀ f2 n : Nat, n < f1 → n < f2 →
    hexDigitsAux f1 n = hexDigitsAux f2 n := by
  induction f1 with
  | zero => intro f2 n h1 _; omega
  | succ f1 ih =>
    intro f2 n h1 h2
    match f2, h2 with
    | f2 + 1, _ =>
      simp only [hexDigitsAux]
      by_cases h16 : n < 16
      · simp [h16]
      · simp only [h16, if_false]
        have hd : n / 16 < n := Nat.div_lt_self (by omega) (by omega)
        rw [ih f2 (n / 16) (by omega) (by omega)]

theorem hexDigits_eq (n : Nat) :
    hexDigits n =
      if n < 16 then [pyHexDigitLower n]
      else hexDigits (n / 16) ++ [pyHexDigitLower (n % 16)] := by
  by_cases h16 : n < 16
  · simp [hexDigits, hexDigitsAux, h16]
  · have hd : n / 16 < n := Nat.div_lt_self (by omega) (by omega)
    simp only [h16, if_false]
    show hexDigitsAux (n + 1) n = hexDigits (n / 16) ++ [pyHexDigitLower (n % 16)]
    rw [hexDigitsAux]
    simp only [h16, if_false]
    rw [hexDigitsAux_mono n (n / 16 + 1) (n / 16) (by omega) (by omega)]
    rfl

theorem hexDigits_length_le (k : Nat) : ∀ n : Nat, 1 ≤ k → n < 16 ^ k →
    (hexDigits n).length ≤ k := by
  induction k with
  | zero => intro n h _; omega
  | succ k ih =>
    intro n _ hn
    rw [hexDigits_eq]
    by_cases h16 : n < 16
    · simp [h16]
    · simp only [h16, if_false, List.length_append, List.length_singleton]
      have hk1 : 1 ≤ k := by
        by_contra hk0
        have : k = 0 := by omega
        subst this
        simp [pow_succ, pow_zero] at hn
        omega
      have hdiv : n / 16 < 16 ^ k := by
        have h2 : n < 16 ^ k * 16 := by rw [← pow_succ]; exact hn
        omega
      have := ih (n / 16) hk1 hdiv
      omega

theorem pyHexUpper_length (w n : Nat) (h : (hexDigits n).length ≤ w) :
    (pyHexUpper w n).length = w := by
  simp only [pyHexUpper, pyFormatHex, List.length_map, List.length_append,
    List.length_replicate]
  omega

theorem pyHexUpper_two_length (a : Nat) (ha : a < 256) :
    (pyHexUpper 2 a).length = 2 :=
  pyHexUpper_length 2 a (hexDigits_length_le 2 a (by omega) (by omega))

theorem pyHexUpper_four_length (m : Nat) (hm : m < 65536) :
    (pyHexUpper 4 m).length = 4 :=
  pyHexUpper_length 4 m (hexDigits_length_le 4 m (by omega) (by omega))

theorem mem_hexDigits (n : Nat) : ∀ b ∈ hexDigits n,
    (48 ≤ b ∧ b ≤ 57) ∨ (97 ≤ b ∧ b ≤ 102) := by
  induction n using Nat.strong_induction_on with
  | _ n ih =>
    intro b hb
    rw [hexDigits_eq] at hb
    by_cases h16 : n < 16
    · simp only [h16, if_true, List.mem_singleton] at hb
      subst hb
      simp only [pyHexDigitLower]
      split <;> omega
    · simp only [h16, if_false, List.mem_append, List.mem_singleton] at hb
      rcases hb with hb | hb
      · exact ih (n / 16) (Nat.div_lt_self (by omega) (by omega)) b hb
      · subst hb
        have : n % 16 < 16 := Nat.mod_lt _ (by omega)
        simp only [pyHexDigitLower]
        split <;> omega

theorem mem_pyHexUpper (w n : Nat) : ∀ b ∈ pyHexUpper w n,
    (48 ≤ b ∧ b ≤ 57) ∨ (65 ≤ b ∧ b ≤ 70) := by
  intro b hb
  simp only [pyHexUpper, pyFormatHex, List.map_append, List.mem_append,
    List.mem_map] at hb
  rcases hb with ⟨x, hx, rfl⟩ | ⟨x, hx, rfl⟩
  · have : x = 48 := List.eq_of_mem_replicate hx
    subst this
    simp [pyUpperByte]
  · rcases mem_hexDigits n x hx with h | h <;>
      · simp only [pyUpperByte]
        split <;> omega

theorem sep_not_mem_pyHexUpper (w n : Nat) : 59 ∉ pyHexUpper w n := by
  intro h
  rcases mem_pyHexUpper w n 59 h with h' | h' <;> omega

/-! ## Helper lemmas about `pySplit` -/

theorem pySplit_eq_single (sep : Nat) (l : List Nat) (h : sep ∉ l) :
    pySplit sep l = [l] := by
  induction l with
  | nil => rfl
  | cons b rest ih =>
    simp only [List.mem_cons, not_or] at h
    have hb : ¬(b = sep) := fun hh => h.1 hh.symm
    simp only [pySplit, hb, if_false, ih h.2]

theorem pySplit_append (sep : Nat) (l1 l2 : List Nat) (h : sep ∉ l1) :
    pySplit sep (l1 ++ sep :: l2) = l1 :: pySplit sep l2 := by
  induction l1 with
  | nil => simp [pySplit]
  | cons b rest ih =>
    simp only [List.mem_cons, not_or] at h
    have hb : ¬(b = sep) := fun hh => h.1 hh.symm
    simp only [List.cons_append, pySplit, hb, if_false]
    rw [List.append_eq, ih h.2]

theorem pyUpper_digit (d : Nat) (hd : d < 16) :
    pyUpperByte (pyHexDigitLower d) = specHexDigit d := by
  have h : ∀ e < 16, pyUpperByte (pyHexDigitLower e) = specHexDigit e := by decide
  exact h d hd

theorem hexDigits_one (n : Nat) (h2 : n < 16) :
    hexDigits n = [pyHexDigitLower n] := by
  rw [hexDigits_eq, if_pos h2]

theorem hexDigits_two (n : Nat) (h1 : 16 ≤ n) (h2 : n < 256) :
    hexDigits n = [pyHexDigitLower (n / 16), pyHexDigitLower (n % 16)] := by
  rw [hexDigits_eq, if_neg (by omega), hexDigits_one (n / 16) (by omega)]
  rfl

theorem hexDigits_three (n : Nat) (h1 : 256 ≤ n) (h2 : n < 4096) :
    hexDigits n =
      [pyHexDigitLower (n / 256), pyHexDigitLower (n / 16 % 16),
       pyHexDigitLower (n % 16)] := by
  rw [hexDigits_eq, if_neg (by omega), hexDigits_two (n / 16) (by omega) (by omega)]
  have : n / 16 / 16 = n / 256 := by
    rw [Nat.div_div_eq_div_mul]
  rw [this]
  rfl

theorem hexDigits_four (n : Nat) (h1 : 4096 ≤ n) (h2 : n < 65536) :
    hexDigits n =
      [pyHexDigitLower (n / 4096), pyHexDigitLower (n / 256 % 16),
       pyHexDigitLower (n / 16 % 16), pyHexDigitLower (n % 16)] := by
  rw [hexDigits_eq, if_neg (by omega),
    hexDigits_three (n / 16) (by omega) (by omega)]
  have ha : n / 16 / 256 = n / 4096 := by
    rw [Nat.div_div_eq_div_mul]
  have hb : n / 16 / 16 = n / 256 := by
    rw [Nat.div_div_eq_div_mul]
  rw [ha, ← hb, Nat.div_div_eq_div_mul]
  rfl

theorem pyHexUpper_two_spec (a : Nat) (ha : a < 256) :
    pyHexUpper 2 a = specHex2 a := by
  by_cases h16 : a < 16
  · have hdiv : a / 16 = 0 := Nat.div_eq_of_lt h16
    have hmod : a % 16 = a := Nat.mod_eq_of_lt h16
    simp only [pyHexUpper, pyFormatHex, hexDigits_one a h16, specHex2, hdiv, hmod,
      List.length_singleton, List.map_append, List.map_cons, List.map_nil,
      List.map_replicate]
    rw [pyUpper_digit a h16]
    rfl
  · have hq : a / 16 < 16 := by omega
    have hm : a % 16 < 16 := Nat.mod_lt a (by omega)
    have hqq : a / 16 % 16 = a / 16 := Nat.mod_eq_of_lt hq
    simp only [pyHexUpper, pyFormatHex, hexDigits_two a (by omega) ha, specHex2, hqq,
      List.length_cons, List.length_singleton, List.map_append, List.map_cons,
      List.map_nil, List.map_replicate]
    rw [pyUpper_digit _ hq, pyUpper_digit _ hm]
    rfl

theorem pyHexUpper_four_spec (m : Nat) (hm : m < 65536) :
    pyHexUpper 4 m = specHex4 m := by
  have h48 : pyUpperByte 48 = 48 := rfl
  have hmod : m % 16 < 16 := Nat.mod_lt m (by omega)
  by_cases c1 : m < 16
  · have d1 : m / 4096 = 0 := Nat.div_eq_of_lt (by omega)
    have d2 : m / 256 = 0 := Nat.div_eq_of_lt (by omega)
    have d3 : m / 16 = 0 := Nat.div_eq_of_lt c1
    have d4 : m % 16 = m := Nat.mod_eq_of_lt c1
    simp only [pyHexUpper, pyFormatHex, hexDigits_one m c1, specHex4, d1, d2, d3, d4,
      List.length_singleton, List.map_append, List.map_cons, List.map_nil,
      List.map_replicate]
    rw [pyUpper_digit m c1]
    rfl
  · by_cases c2 : m < 256
    · have d1 : m / 4096 = 0 := Nat.div_eq_of_lt (by omega)
      have d2 : m / 256 = 0 := Nat.div_eq_of_lt (by omega)
      have hq : m / 16 < 16 := by omega
      have d3 : m / 16 % 16 = m / 16 := Nat.mod_eq_of_lt hq
      simp only [pyHexUpper, pyFormatHex, hexDigits_two m (by omega) c2, specHex4,
        d1, d2, d3, List.length_cons, List.length_singleton, List.map_append,
        List.map_cons, List.map_nil, List.map_replicate]
      rw [pyUpper_digit _ hq, pyUpper_digit _ hmod]
      rfl
    · by_cases c3 : m < 4096
      · have d1 : m / 4096 = 0 := Nat.div_eq_of_lt (by omega)
        have hq : m / 256 < 16 := by omega
        have d2 : m / 256 % 16 = m / 256 := Nat.mod_eq_of_lt hq
        have hq2 : m / 16 % 16 < 16 := Nat.mod_lt _ (by omega)
        simp only [pyHexUpper, pyFormatHex, hexDigits_three m (by omega) c3, specHex4,
          d1, d2, List.length_cons, List.length_singleton, List.map_append,
          List.map_cons, List.map_nil, List.map_replicate]
        rw [pyUpper_digit _ hq, pyUpper_digit _ hq2, pyUpper_digit _ hmod]
        rfl
      · have hq : m / 4096 < 16 := by omega
        have d1 : m / 4096 % 16 = m / 4096 := Nat.mod_eq_of_lt hq
        have hq2 : m / 256 % 16 < 16 := Nat.mod_lt _ (by omega)
        have hq3 : m / 16 % 16 < 16 := Nat.mod_lt _ (by omega)
        simp only [pyHexUpper, pyFormatHex, hexDigits_four m (by omega) hm, specHex4,
          d1, List.length_cons, List.length_singleton, List.map_append,
          List.map_cons, List.map_nil, List.map_replicate]
        rw [pyUpper_digit _ hq, pyUpper_digit _ hq2, pyUpper_digit _ hq3,
          pyUpper_digit _ hmod]
        rfl

/-! ## The response-shaped echo of a constructed packet -/

theorem echo_construct (a : Nat) (c : List Nat) :
    asResponseEcho (construct_packet a c) =
      62 :: ((pyHexUpper 2 a ++ c) ++
        59 :: pyHexUpper 4 ((pyHexUpper 2 a ++ c).sum % 65536)) := by
  simp only [asResponseEcho, construct_packet]
  congr 1
  have hX : (pyHexUpper 2 a ++ c) ++
        59 :: (pyHexUpper 4 ((pyHexUpper 2 a ++ c).sum % 65536) ++ [13, 10]) =
      (((pyHexUpper 2 a ++ c) ++
        59 :: pyHexUpper 4 ((pyHexUpper 2 a ++ c).sum % 65536)) ++ [13]) ++ [10] := by
    simp
  simp only [List.drop_one, List.tail_cons]
  rw [hX, List.dropLast_concat, List.dropLast_concat]

theorem validate_echo (a : Nat) (c : List Nat) (ha : a < 256) (hc : 59 ∉ c) :
    validate_packet a (asResponseEcho (construct_packet a c)) = some true := by
  rw [echo_construct]
  have hA : (pyHexUpper 2 a).length = 2 := pyHexUpper_two_length a ha
  have hA59 : 59 ∉ pyHexUpper 2 a := sep_not_mem_pyHexUpper 2 a
  have hK59 : 59 ∉ pyHexUpper 4 ((pyHexUpper 2 a ++ c).sum % 65536) :=
    sep_not_mem_pyHexUpper 4 _
  have htake : ((pyHexUpper 2 a ++ c) ++
        59 :: pyHexUpper 4 ((pyHexUpper 2 a ++ c).sum % 65536)).take 2 =
      pyHexUpper 2 a := by
    rw [List.append_assoc]
    exact List.take_left' hA
  have hsplit : pySplit 59 (62 :: ((pyHexUpper 2 a ++ c) ++
        59 :: pyHexUpper 4 ((pyHexUpper 2 a ++ c).sum % 65536))) =
      [62 :: (pyHexUpper 2 a ++ c),
       pyHexUpper 4 ((pyHexUpper 2 a ++ c).sum % 65536)] := by
    have h1 : 62 :: ((pyHexUpper 2 a ++ c) ++
          59 :: pyHexUpper 4 ((pyHexUpper 2 a ++ c).sum % 65536)) =
        (62 :: (pyHexUpper 2 a ++ c)) ++
          59 :: pyHexUpper 4 ((pyHexUpper 2 a ++ c).sum % 65536) := by
      simp
    have h2 : 59 ∉ 62 :: (pyHexUpper 2 a ++ c) := by
      simp only [List.mem_cons, List.mem_append, not_or]
      exact ⟨by omega, hA59, hc⟩
    rw [h1, pySplit_append 59 _ _ h2, pySplit_eq_single 59 _ hK59]
  simp only [validate_packet, List.drop_succ_cons, List.drop_zero, htake, hsplit,
    List.drop_one, List.tail_cons, ne_eq, not_true_eq_false, if_false,
    not_false_eq_true, if_true]

/-! ## Unfolding helpers for the request handlers -/

theorem get_opt_eq_getD (l : List Nat) (n : Nat) (h : n < l.length) :
    l.get? n = some (l.getD n 0) := by
  rw [List.getD_eq_getElem?_getD, List.get?_eq_getElem?]
  cases hx : l[n]? with
  | none => rw [List.getElem?_eq_none_iff] at hx; omega
  | some v => rfl

theorem erase_handle_eq (resp chars : List Nat)
    (hdec : utf8Decode (pyStrip resp) = some chars)
    (h : 4 ≤ chars.length) :
    request_erase_handle resp = some (some (chars.getD 3 0 == 69)) := by
  have hne : resp ≠ [] := by
    intro he
    subst he
    rw [show pyStrip [] = [] from rfl] at hdec
    rw [show utf8Decode [] = some [] from rfl] at hdec
    obtain rfl : ([] : List Nat) = chars := Option.some.inj hdec
    simp at h
  simp only [request_erase_handle, if_neg hne, hdec]
  rw [get_opt_eq_getD chars 3 (by omega)]

theorem status_handle_of_valid (a : Nat) (resp : List Nat)
    (hv : validate_packet a (pyStrip resp) = some true)
    (hS : ((pySplit 59 (pyStrip resp)).headD []).get? 3 = some 83)
    (h11 : (pySplit 44 ((pySplit 59 (pyStrip resp)).headD [])).length = 11) :
    request_status_handle a resp =
      Option.map some
        (decode_status_fields (pySplit 44 ((pySplit 59 (pyStrip resp)).headD []))) := by
  have hne : resp ≠ [] := by
    intro he
    subst he
    simp [pyStrip, validate_packet] at hv
  simp only [request_status_handle, if_neg hne, hv, hS, h11]
  simp only [ne_eq, not_true_eq_false, if_false]
  cases hdec : decode_status_fields (pySplit 44 ((pySplit 59 (pyStrip resp)).headD [])) with
  | none => simp
  | some rd => simp

/-! ## Concrete frames used in the claims -/

/-- The status response frame from the `validate_packet` docstring
(src/PM10AHDS.py line 70), also the spec's worked example:
`>01S,0,0,12627447,89716830841,3200,244535000,32400,1,404360,7927;0C74`. -/
def exampleStatusFrame : List Nat :=
  [62, 48, 49, 83, 44, 48, 44, 48, 44, 49, 50, 54, 50, 55, 52, 52, 55, 44, 56,
   57, 55, 49, 54, 56, 51, 48, 56, 52, 49, 44, 51, 50, 48, 48, 44, 50, 52, 52,
   53, 51, 53, 48, 48, 48, 44, 51, 50, 52, 48, 48, 44, 49, 44, 52, 48, 52, 51,
   54, 48, 44, 55, 57, 50, 55, 59, 48, 67, 55, 52]

/-- The comma-split fields of the example frame's body: the eleven pieces
`>01S`, `0`, `0`, `12627447`, `89716830841`, `3200`, `244535000`, `32400`,
`1`, `404360`, `7927` (the body keeps the `>` start marker, so field 0 is
`>01S`). -/
def exampleStatusFields : List (List Nat) :=
  [[62, 48, 49, 83], [48], [48], [49, 50, 54, 50, 55, 52, 52, 55],
   [56, 57, 55, 49, 54, 56, 51, 48, 56, 52, 49], [51, 50, 48, 48],
   [50, 52, 52, 53, 51, 53, 48, 48, 48], [51, 50, 52, 48, 48], [49],
   [52, 48, 52, 51, 54, 48], [55, 57, 50, 55]]

/-- A well-checksummed status frame with only ten comma-split fields:
`>01S,1,1,1,1,1,1,1,1,1;03F9`. -/
def tenFieldFrame : List Nat :=
  [62, 48, 49, 83, 44, 49, 44, 49, 44, 49, 44, 49, 44, 49, 44, 49, 44, 49, 44,
   49, 44, 49, 59, 48, 51, 70, 57]

/-- A well-checksummed eleven-field status frame whose field 3 is the
non-numeric `x`: `>01S,1,1,x,1,1,1,1,1,1,1;049D`. -/
def parseErrorFrame : List Nat :=
  [62, 48, 49, 83, 44, 49, 44, 49, 44, 120, 44, 49, 44, 49, 44, 49, 44, 49,
   44, 49, 44, 49, 44, 49, 59, 48, 52, 57, 68]

/-! ## Claim theorems -/

/-- Claim C7, counterexample: the Validator is not total — on the empty
byte sequence `packet[0]` raises an uncaught `IndexError` (modelled as
`none`) instead of returning a `BadStartMarker` failure result.  The
crash is reachable through the driver: a whitespace-only response such
as `\r\n` passes `request_status`'s empty-read check (line 118), strips
to the empty byte string (line 123), and hands it to `validate_packet`,
so `request_status` itself propagates the exception. -/
theorem validate_empty_raises :
    validate_packet 1 [] = none ∧
      request_status_handle 1 [13, 10] = none :=
  ⟨rfl, by decide⟩

/-- Claim C7 (corrected): for every NON-empty input byte sequence the
Validator returns a result rather than raising, and any frame whose first
byte is not `>` (62) yields the failure result (`False`, logged as a bad
start marker); the empty input, by contrast, raises — and that crash is
reachable in the driver, because a whitespace-only response passes the
empty-read check and strips to the empty byte string before validation
(see the counterexample). -/
theorem validate_total_on_nonempty (a : Nat) (p : List Nat) (hne : p ≠ []) :
    validate_packet a p ≠ none ∧
      (p.headD 0 ≠ 62 → validate_packet a p = some false) := by
  cases p with
  | nil => exact absurd rfl hne
  | cons p0 rest =>
    constructor
    · simp only [validate_packet]
      split
      · simp
      · split
        · simp
        · split
          · split <;> simp
          · simp
    · intro h0
      have h0' : p0 ≠ 62 := by simpa using h0
      simp only [validate_packet, if_pos h0']

/-- Witness for `validate_total_on_nonempty` at the concrete input
`[33]` (a frame starting with `!`). -/
theorem validate_total_on_nonempty_witness :
    [33] ≠ ([] : List Nat) ∧
      (validate_packet 1 [33] ≠ none ∧
        (([33] : List Nat).headD 0 ≠ 62 → validate_packet 1 [33] = some false)) :=
  ⟨by decide, validate_total_on_nonempty 1 [33] (by decide)⟩

/-- Claim C6, counterexample: a frame with TWO `;` separators
(`>01S;00B4;`) passes validation, because the source compares the segment
between the first and second `;` against the recomputed checksum instead
of requiring exactly one separator. -/
theorem two_separators_validate :
    validate_packet 1 [62, 48, 49, 83, 59, 48, 48, 66, 52, 59] = some true ∧
      ([62, 48, 49, 83, 59, 48, 48, 66, 52, 59] : List Nat).count 59 = 2 :=
  ⟨by decide, by decide⟩

/-- Claim C6 (corrected): a frame that contains NO `;` separator fails
validation (the `IndexError` from `split(b';')[1]` is caught and mapped
to `False`); but more than one `;` does not necessarily fail — the
checksum field compared is the segment between the first `;` and the
second `;` (or the end of the frame), as the counterexample shows. -/
theorem validate_no_separator_fails (a : Nat) (p : List Nat)
    (hne : p ≠ []) (hsep : 59 ∉ p) :
    validate_packet a p = some false := by
  cases p with
  | nil => exact absurd rfl hne
  | cons p0 rest =>
    simp only [validate_packet, pySplit_eq_single 59 _ hsep]
    split
    · rfl
    · split
      · rfl
      · rfl

/-- Witness for `validate_no_separator_fails` at the concrete input
`[62]` (a bare `>` with no separator). -/
theorem validate_no_separator_fails_witness :
    ([62] ≠ ([] : List Nat) ∧ 59 ∉ ([62] : List Nat)) ∧
      validate_packet 1 [62] = some false :=
  ⟨⟨by decide, by decide⟩, validate_no_separator_fails 1 [62] (by decide) (by decide)⟩

/-- Claim C2, counterexample: the checksum round-trip fails for a command
that itself contains the separator byte `;` (59): the echoed response of
`construct_packet 1 b";"` does not validate, because the Validator splits
at the FIRST `;`, which now lies inside the command bytes. -/
theorem echo_with_separator_fails :
    validate_packet 1 (asResponseEcho (construct_packet 1 [59])) = some false := by
  decide

/-- Claim C2 (corrected): for every address in [1,254] and every command
byte sequence that does not contain the separator byte `;` (59), the
checksum embedded by `construct_packet` matches the checksum
`validate_packet` recomputes, so the response-shaped echo of the packet
passes validation. -/
theorem checksum_roundtrip (a : Nat) (c : List Nat)
    (ha : 1 ≤ a ∧ a ≤ 254) (hc : 59 ∉ c) :
    validate_packet a (asResponseEcho (construct_packet a c)) = some true :=
  validate_echo a c (by omega) hc

/-- Witness for `checksum_roundtrip` at address 1 and the status command
`S,` (bytes `[83, 44]`). -/
theorem checksum_roundtrip_witness :
    ((1 ≤ 1 ∧ 1 ≤ 254) ∧ 59 ∉ ([83, 44] : List Nat)) ∧
      validate_packet 1 (asResponseEcho (construct_packet 1 [83, 44])) = some true :=
  ⟨⟨by decide, by decide⟩, checksum_roundtrip 1 [83, 44] (by decide) (by decide)⟩

/-- Claim C3 (confirmed): for every address in [1,254] and every command
byte sequence, `construct_packet` returns exactly `<` + (address as 2
uppercase hex ASCII digits) + command + `;` + (4 uppercase zero-padded
hex digits of the byte sum of address digits and command, mod 65536) +
CRLF, with the hex renderings written independently from the spec's
words (`specHex2`, `specHex4`); the function is pure and total. -/
theorem construct_packet_spec (a : Nat) (c : List Nat) (ha : 1 ≤ a ∧ a ≤ 254) :
    construct_packet a c =
      60 :: ((specHex2 a ++ c) ++
        (59 :: (specHex4 ((specHex2 a ++ c).sum % 65536) ++ [13, 10]))) := by
  have ha' : a < 256 := by omega
  simp only [construct_packet, pyHexUpper_two_spec a ha',
    pyHexUpper_four_spec _ (Nat.mod_lt _ (by omega))]

/-- Witness for `construct_packet_spec` at address 1 and command
`[83, 44]` (`S,`). -/
theorem construct_packet_spec_witness :
    (1 ≤ 1 ∧ 1 ≤ 254) ∧
      construct_packet 1 [83, 44] =
        60 :: ((specHex2 1 ++ [83, 44]) ++
          (59 :: (specHex4 ((specHex2 1 ++ [83, 44]).sum % 65536) ++ [13, 10]))) :=
  ⟨by decide, construct_packet_spec 1 [83, 44] (by decide)⟩

/-- Claim C10, counterexample: the packet built for address 1 and the
2-byte command `S,` has length 12, not `len(c) + 11 = 13` — the claim's
component count (1 start + 2 address + len(c) + 1 separator + 4 checksum
+ 2 line ending) sums to `len(c) + 10`. -/
theorem packet_length_not_eleven :
    (construct_packet 1 [83, 44]).length ≠ [83, 44].length + 11 := by decide

/-- Claim C10 (corrected): for every address in [1,254] and every command
byte sequence `c`, the packet length is exactly `c.length + 10`: 1 start
byte, 2 address digits, `c.length` command bytes, 1 separator, 4 checksum
digits (the sum is reduced mod 65536 before formatting, so the checksum
field is always 4 hex characters), and 2 line-ending bytes. -/
theorem packet_length_ten (a : Nat) (c : List Nat) (ha : 1 ≤ a ∧ a ≤ 254) :
    (construct_packet a c).length = c.length + 10 := by
  have h2 : (pyHexUpper 2 a).length = 2 := pyHexUpper_two_length a (by omega)
  have h4 : (pyHexUpper 4 ((pyHexUpper 2 a ++ c).sum % 65536)).length = 4 :=
    pyHexUpper_four_length _ (Nat.mod_lt _ (by omega))
  simp only [construct_packet, List.length_cons, List.length_append,
    List.length_nil, h2, h4]
  omega

/-- Witness for `packet_length_ten` at address 1 and command `[83, 44]`. -/
theorem packet_length_ten_witness :
    (1 ≤ 1 ∧ 1 ≤ 254) ∧ (construct_packet 1 [83, 44]).length = [83, 44].length + 10 :=
  ⟨by decide, packet_length_ten 1 [83, 44] (by decide)⟩

/-- Claim C4, counterexample: fed a response whose type byte (offset 3)
is `X` (88), the erase decoder returns the plain boolean `False` — the
same value space as a negative acknowledgment — not a distinguished
`UnexpectedResponseType` failure. -/
theorem erase_nonE_plain_false :
    request_erase_handle [62, 48, 49, 88, 59, 48, 48, 48, 48] = some (some false) := by
  decide

/-- Claim C4 (corrected): the erase decoder returns `True` when character
3 of the stripped, UTF-8-decoded response is `E` (69) and the plain
boolean `False` (after logging) for any other character there; the
failure is NOT a distinguished decode failure.  (A response whose
stripped bytes are not valid UTF-8 instead raises an uncaught
`UnicodeDecodeError`, and one that decodes to fewer than 4 characters
raises an uncaught `IndexError`.) -/
theorem erase_decode_plain_bool (resp chars : List Nat)
    (hdec : utf8Decode (pyStrip resp) = some chars)
    (h : 4 ≤ chars.length) (hX : chars.getD 3 0 ≠ 69) :
    request_erase_handle resp = some (some false) := by
  rw [erase_handle_eq resp chars hdec h]
  have hb : (chars.getD 3 0 == 69) = false := beq_eq_false_iff_ne.mpr hX
  rw [hb]

/-- Witness for `erase_decode_plain_bool` at the concrete response
`>01X` (bytes `[62, 48, 49, 88]`, which decode to themselves). -/
theorem erase_decode_plain_bool_witness :
    (utf8Decode (pyStrip [62, 48, 49, 88]) = some [62, 48, 49, 88] ∧
      4 ≤ ([62, 48, 49, 88] : List Nat).length ∧
      ([62, 48, 49, 88] : List Nat).getD 3 0 ≠ 69) ∧
      request_erase_handle [62, 48, 49, 88] = some (some false) :=
  ⟨⟨by decide, by decide, by decide⟩,
    erase_decode_plain_bool [62, 48, 49, 88] [62, 48, 49, 88] (by decide) (by decide)
      (by decide)⟩

/-- Claim C5, counterexample: the frame `>99E` (bytes `[62, 57, 57, 69]`)
fails validation for address 1 (wrong address field, no checksum at all),
yet `request_erase` decodes it as a POSITIVE acknowledgment — the erase
path never invokes the Validator. -/
theorem erase_invalid_frame_acked :
    validate_packet 1 [62, 57, 57, 69] = some false ∧
      request_erase_handle [62, 57, 57, 69] = some (some true) :=
  ⟨by decide, by decide⟩

/-- Claim C5 (corrected): unlike `request_status`, `request_erase` hands
nothing to the Validator; it strips and UTF-8-decodes the response and
inspects only character 3 of the decoded text, so any frame — even one
that fails start-marker, address, or checksum validation — whose decoded
character 3 is `E` (69) is decoded as a positive erase acknowledgment. -/
theorem erase_skips_validation (a : Nat) (resp chars : List Nat)
    (hdec : utf8Decode (pyStrip resp) = some chars)
    (h : 4 ≤ chars.length)
    (hbad : validate_packet a (pyStrip resp) = some false)
    (hE : chars.getD 3 0 = 69) :
    request_erase_handle resp = some (some true) := by
  rw [erase_handle_eq resp chars hdec h]
  have hb : (chars.getD 3 0 == 69) = true := beq_iff_eq.mpr hE
  rw [hb]

/-- Witness for `erase_skips_validation` at address 1 and the concrete
invalid frame `>99E` (bytes `[62, 57, 57, 69]`, which decode to
themselves). -/
theorem erase_skips_validation_witness :
    (utf8Decode (pyStrip [62, 57, 57, 69]) = some [62, 57, 57, 69] ∧
      4 ≤ ([62, 57, 57, 69] : List Nat).length ∧
      validate_packet 1 (pyStrip [62, 57, 57, 69]) = some false ∧
      ([62, 57, 57, 69] : List Nat).getD 3 0 = 69) ∧
      request_erase_handle [62, 57, 57, 69] = some (some true) :=
  ⟨⟨by decide, by decide, by decide, by decide⟩,
    erase_skips_validation 1 [62, 57, 57, 69] [62, 57, 57, 69] (by decide) (by decide)
      (by decide) (by decide)⟩

/-- Claim C8 (code bug): on the validated, well-formed eleven-field
status frame `>01S,1,1,x,1,1,1,1,1,1,1;049D`, whose field 3 is not an
integer, the status decoder does not return a `FieldParseError` failure
result — `int(_fields[3])` raises an uncaught `ValueError` (modelled as
`none`), contradicting the source docstring's promise to return a
dictionary or `None`. -/
theorem status_parse_error_raises :
    request_status_handle 1 parseErrorFrame = none := by decide

/-- Claim C9 (confirmed): for every ASCII response frame that validates
and whose body carries the status type byte `S` (83) at offset 3, a
comma-split field count different from 11 makes the status decoder fail
(return `None`, logged as a field-count mismatch) with no partial
reading. -/
theorem status_field_count_mismatch (a : Nat) (resp : List Nat)
    (hascii : ∀ b ∈ resp, b < 128)
    (hv : validate_packet a (pyStrip resp) = some true)
    (hS : ((pySplit 59 (pyStrip resp)).headD []).get? 3 = some 83)
    (hn : (pySplit 44 ((pySplit 59 (pyStrip resp)).headD [])).length ≠ 11) :
    request_status_handle a resp = some none := by
  have hne : resp ≠ [] := by
    intro he
    subst he
    simp [pyStrip, validate_packet] at hv
  simp only [request_status_handle, if_neg hne, hv, hS]
  simp only [ne_eq, not_true_eq_false, if_false]
  rw [if_pos hn]

/-- Witness for `status_field_count_mismatch` at address 1 and the
ten-field frame `>01S,1,1,1,1,1,1,1,1,1;03F9`. -/
theorem status_field_count_mismatch_witness :
    ((∀ b ∈ tenFieldFrame, b < 128) ∧
      validate_packet 1 (pyStrip tenFieldFrame) = some true ∧
      ((pySplit 59 (pyStrip tenFieldFrame)).headD []).get? 3 = some 83 ∧
      (pySplit 44 ((pySplit 59 (pyStrip tenFieldFrame)).headD [])).length ≠ 11) ∧
      request_status_handle 1 tenFieldFrame = some none :=
  ⟨⟨by decide, by decide, by decide, by decide⟩,
    status_field_count_mismatch 1 tenFieldFrame (by decide) (by decide) (by decide)
      (by decide)⟩

/-- Claim C1, counterexample: decoding the spec's worked-example frame at
address 1 yields runtime 12627447 seconds, not the claimed 0 — field 3 of
the comma split (`12627447`) is what the source assigns to
`runtime_seconds`. -/
theorem status_example_runtime_nonzero :
    Option.map (Option.map StatusReading.runtime_seconds)
        (request_status_handle 1 (exampleStatusFrame ++ [13, 10])) =
      some (some 12627447) ∧
    Option.map (Option.map StatusReading.runtime_seconds)
        (request_status_handle 1 (exampleStatusFrame ++ [13, 10])) ≠
      some (some 0) :=
  ⟨by decide, by decide⟩

/-- Claim C1 (corrected): decoding the response frame
`>01S,0,0,12627447,89716830841,3200,244535000,32400,1,404360,7927;0C74`
at address 1 succeeds, and yields runtime = 12627447 s, energy =
89716830841 × 2.7777777777778e-10 kWh (≈ 2.492e1, not the claimed
3.507e1), power = 3.2 W, voltage = 244.535 V, current = 0.0324 A,
lead/lag = lag, power factor = 0.40436, apparent power = 7.927 VA, each
wire field parsed as an integer and scaled per the source's table. -/
theorem status_example_decode :
    request_status_handle 1 (exampleStatusFrame ++ [13, 10]) =
      some (some
        { runtime_seconds := 12627447
          energy_kwh := 89716830841 * (27777777777778 / 10 ^ 23)
          power_w := 3200 / 1000
          voltage_v := 244535000 / 1000000
          current_a := 32400 / 1000000
          powerfactor_leadlag := "lag"
          powerfactor := 404360 / 1000000
          apparent_power_va := 7927 / 1000 }) ∧
      (24 : ℚ) < 89716830841 * (27777777777778 / 10 ^ 23) ∧
      89716830841 * (27777777777778 / 10 ^ 23) < (25 : ℚ) := by
  refine ⟨?_, by norm_num, by norm_num⟩
  rw [status_handle_of_valid 1 _ (by decide) (by decide) (by decide)]
  have hf : pySplit 44 ((pySplit 59 (pyStrip (exampleStatusFrame ++ [13, 10]))).headD [])
      = exampleStatusFields := by decide
  rw [hf]
  have h3 : pyInt (exampleStatusFields.getD 3 []) = some 12627447 := by decide
  have h4 : pyInt (exampleStatusFields.getD 4 []) = some 89716830841 := by decide
  have h5 : pyInt (exampleStatusFields.getD 5 []) = some 3200 := by decide
  have h6 : pyInt (exampleStatusFields.getD 6 []) = some 244535000 := by decide
  have h7 : pyInt (exampleStatusFields.getD 7 []) = some 32400 := by decide
  have h9 : pyInt (exampleStatusFields.getD 9 []) = some 404360 := by decide
  have h10 : pyInt (exampleStatusFields.getD 10 []) = some 7927 := by decide
  have h8 : exampleStatusFields.getD 8 [] = [49] := by decide
  simp only [decode_status_fields, h3, h4, h5, h6, h7, h8, h9, h10]
  simp only [Option.map_some', Option.some.injEq, StatusReading.mk.injEq]
  norm_num

end PM10AHDS
